import Mathlib

/-!
Shallow embedding of the core of `src/extension.js` (focus-session-helper):
the `StatsManager` statistics store and the `FocusSessionManager` timer state
machine, together with the helper functions `minutesToMilliseconds`,
`getTodayKey` and the persisted-payload handling of `_loadStats`.

Modelling conventions:
* A JavaScript number that may be non-finite (NaN, ±Infinity) is `Option ℚ`,
  with `none` for the non-finite case; a number known to be finite is `ℚ`.
  `Date.now()` instants are passed in explicitly as `ℚ` parameters.
* The statistics object `this._stats` is a function `String → Option ℚ`
  (`none` = key absent); assigning `this._stats[key] = v` is a pointwise
  function update, exactly the semantics of a plain-object property write.
* `getTodayKey()` reads the external clock, so operations that call it take
  the key it would return as an explicit `todayKey : String` parameter;
  `getTodayKey` itself is embedded as a function of the date components.
* User-visible messages are returned as booleans (message shown or not);
  the payload handed to `globalState.update` by `_saveStats` is returned as
  an `Option StatsMap` (`none` = no persist issued on this call).
-/

namespace FocusSession

/-- `TICK_INTERVAL_MS` from extension.js: the timer interval in milliseconds. -/
def TICK_INTERVAL_MS : ℚ := 1000

/-- `minutesToMilliseconds(minutes)` from extension.js: a non-finite minutes
value (`none`) converts to 0, otherwise to `minutes * 60 * 1000`. -/
def minutesToMilliseconds : Option ℚ → ℚ
  | none => 0
  | some m => m * 60 * 1000

/-- The in-memory statistics object of `StatsManager` (`this._stats`): a map
from date keys to milliseconds; `none` means the key is absent. -/
def StatsMap : Type := String → Option ℚ

/-- The read `this._stats[key] || 0`: an absent key reads as 0. (For a stored
finite number `v`, JavaScript's `v || 0` is `v` when `v ≠ 0` and `0` when
`v = 0`, which is `v` either way.) -/
def lookupOrZero (stats : StatsMap) (key : String) : ℚ :=
  (stats key).getD 0

/-- `StatsManager.addFocusedMilliseconds(deltaMs)` from extension.js, with the
value `getTodayKey()` returns at call time passed in as `todayKey`. Returns the
new in-memory mapping and, when `_saveStats` is issued, the mapping it persists
(`none` when the call resolves without mutation or persist). -/
def addFocusedMilliseconds (todayKey : String) (stats : StatsMap)
    (deltaMs : Option ℚ) : StatsMap × Option StatsMap :=
  match deltaMs with
  | none => (stats, none)
  | some d =>
    if d ≤ 0 then (stats, none)
    else
      let prev := lookupOrZero stats todayKey
      let newStats : StatsMap := fun k => if k = todayKey then some (prev + d) else stats k
      (newStats, some newStats)

/-- `StatsManager.getTodayMilliseconds()` from extension.js, with today's key
passed in: today's bucket value, or 0 if absent. -/
def getTodayMilliseconds (todayKey : String) (stats : StatsMap) : ℚ :=
  lookupOrZero stats todayKey

/-- `String(n).padStart(2, '0')` as used in `getTodayKey`. -/
def padStart2 (s : String) : String :=
  if s.length ≥ 2 then s else String.mk (List.replicate (2 - s.length) '0') ++ s

/-- `getTodayKey()` from extension.js, as a function of the current date's
components; `monthIndex` is JavaScript's 0-based `Date.getMonth()`. -/
def getTodayKey (year : Nat) (monthIndex : Nat) (day : Nat) : String :=
  toString year ++ "-" ++ padStart2 (toString (monthIndex + 1)) ++ "-" ++ padStart2 (toString day)

/-- A JavaScript value as it comes back from `globalState.get(STORAGE_KEY_STATS)`:
`undef` is `undefined` (key absent), `numv none` is NaN, `objv` is a plain
object with its property list. -/
inductive RawValue where
  | undef : RawValue
  | nullv : RawValue
  | boolv : Bool → RawValue
  | numv : Option ℚ → RawValue
  | strv : String → RawValue
  | objv : List (String × RawValue) → RawValue

/-- JavaScript truthiness of a `RawValue` (`!raw` is its negation): `undefined`,
`null`, `false`, `0`, NaN and `""` are falsy; every object is truthy. -/
def jsTruthy : RawValue → Bool
  | .undef => false
  | .nullv => false
  | .boolv b => b
  | .numv none => false
  | .numv (some q) => q != 0
  | .strv s => s != ""
  | .objv _ => true

/-- `typeof raw === 'object'` for our value model; note `typeof null` is
`"object"` in JavaScript. -/
def typeofObject : RawValue → Bool
  | .nullv => true
  | .objv _ => true
  | _ => false

/-- `StatsManager._loadStats()` from extension.js, applied to the raw persisted
value: if `!raw || typeof raw !== 'object'` the stats start as the empty object
`{}`; otherwise the raw value is returned as-is. -/
def loadStats (raw : RawValue) : RawValue :=
  if !jsTruthy raw || !typeofObject raw then .objv [] else raw

/-- A well-formed persisted statistics payload in the sense of the spec's words:
"a well-formed mapping from date keys to numbers" — an object all of whose
property values are finite numbers. Stated from the spec, to be compared with
what `loadStats` actually accepts. -/
def specWellFormedMapping : RawValue → Bool
  | .objv entries => entries.all (fun e => match e.2 with | .numv (some _) => true | _ => false)
  | _ => false

/-- The mutable fields of `FocusSessionManager` that the timer state machine
reads and writes, plus the owned `StatsManager` mapping. `timerArmed` models
`this._timer !== null` (a periodic callback is armed). -/
structure FocusState where
  remainingMs : ℚ
  running : Bool
  lastTickTime : ℚ
  timerArmed : Bool
  stats : StatsMap

/-- `FocusSessionManager._stopTimerInternal(resetRemaining)` from extension.js:
clears any armed interval, clears the running flag and, when asked, resets the
remaining time. (`_updateStatusBar` is display-only and has no state effect.) -/
def stopTimerInternal (resetRemaining : Bool) (s : FocusState) : FocusState :=
  let s1 := { s with timerArmed := false, running := false }
  if resetRemaining then { s1 with remainingMs := 0 } else s1

/-- `FocusSessionManager.startNewSession(minutes)` from extension.js; `now` is
`Date.now()` at the call. Returns the new state and whether the rejection
warning message was shown. -/
def startNewSession (minutes : Option ℚ) (now : ℚ) (s : FocusState) :
    FocusState × Bool :=
  let ms := minutesToMilliseconds minutes
  if ms ≤ 0 then (s, true)
  else
    let s1 := stopTimerInternal false s
    ({ s1 with remainingMs := ms, running := true, lastTickTime := now,
               timerArmed := true }, false)

/-- `FocusSessionManager._finishSession()` from extension.js; `now` is the
`Date.now()` read inside the finish path and `todayKey` the value of
`getTodayKey()` when the statistics are updated. Returns the new state and the
`spentMs` handed to `StatsManager.addFocusedMilliseconds`. -/
def finishSession (now : ℚ) (todayKey : String) (s : FocusState) :
    FocusState × ℚ :=
  let last := s.lastTickTime
  let spentMs := max 0 (now - last + TICK_INTERVAL_MS)
  let s1 := stopTimerInternal false { s with running := false }
  let s2 := { s1 with stats := (addFocusedMilliseconds todayKey s1.stats (some spentMs)).1 }
  (s2, spentMs)

/-- `FocusSessionManager._onTick()` from extension.js; `now` is `Date.now()` at
the tick and `finishNow` the (possibly marginally later) `Date.now()` read
inside `_finishSession` when the countdown completes on this tick. Returns the
new state and, when the finish path ran, the `spentMs` it handed to the
statistics store. -/
def onTick (now finishNow : ℚ) (todayKey : String) (s : FocusState) :
    FocusState × Option ℚ :=
  if !s.running then (s, none)
  else
    let delta := now - s.lastTickTime
    let s1 := { s with lastTickTime := now, remainingMs := s.remainingMs - delta }
    if s1.remainingMs ≤ 0 then
      let r := finishSession finishNow todayKey { s1 with remainingMs := 0 }
      (r.1, some r.2)
    else (s1, none)

/-- `FocusSessionManager.togglePauseOrResume()` from extension.js; `now` is
`Date.now()` at the call (read only on the resume branch). Returns the new
state and whether the "no session" informational message was shown. -/
def togglePauseOrResume (now : ℚ) (s : FocusState) : FocusState × Bool :=
  if s.remainingMs ≤ 0 ∧ s.running = false then (s, true)
  else if s.running then ({ s with running := false }, false)
  else ({ s with running := true, lastTickTime := now }, false)

/-- `FocusSessionManager.stopSession(showMessage)` from extension.js. Returns
the new state and whether the confirmation message was shown. -/
def stopSession (showMessage : Bool) (s : FocusState) : FocusState × Bool :=
  (stopTimerInternal true s, showMessage)

/-- A freshly-constructed manager: no session, empty statistics. -/
def initialState : FocusState :=
  { remainingMs := 0, running := false, lastTickTime := 0, timerArmed := false,
    stats := fun _ => none }

/-- Delivery of one periodic tick at instant `t` (both `Date.now()` reads of
the tick coincide), threading through the last finish-path `spentMs` seen. -/
def deliverTick (todayKey : String) (acc : FocusState × Option ℚ) (t : ℚ) :
    FocusState × Option ℚ :=
  let r := onTick t t todayKey acc.1
  (r.1, match r.2 with | some v => some v | none => acc.2)

/-- The tick instants of a 1-minute session started at time 0 with perfectly
regular 1000 ms ticks: 1000, 2000, …, 60000. -/
def oneMinuteTickTimes : List ℚ :=
  [1000, 2000, 3000, 4000, 5000, 6000, 7000, 8000, 9000, 10000,
   11000, 12000, 13000, 14000, 15000, 16000, 17000, 18000, 19000, 20000,
   21000, 22000, 23000, 24000, 25000, 26000, 27000, 28000, 29000, 30000,
   31000, 32000, 33000, 34000, 35000, 36000, 37000, 38000, 39000, 40000,
   41000, 42000, 43000, 44000, 45000, 46000, 47000, 48000, 49000, 50000,
   51000, 52000, 53000, 54000, 55000, 56000, 57000, 58000, 59000, 60000]

/-- The complete run of the completion-accumulation scenario: start a 1-minute
session at time 0 from a fresh manager, then deliver ticks until the countdown
reaches 0. -/
def oneMinuteRun (todayKey : String) : FocusState × Option ℚ :=
  oneMinuteTickTimes.foldl (deliverTick todayKey)
    ((startNewSession (some 1) 0 initialState).1, none)

/-- A concrete mid-session state: 90 s left, running, last tick at instant 0. -/
def demoRunningState : FocusState :=
  { remainingMs := 90000, running := true, lastTickTime := 0, timerArmed := true,
    stats := fun _ => none }

/-- A concrete statistics mapping holding one bucket for an earlier day. -/
def demoStats : StatsMap :=
  fun k => if k = "2026-01-05" then some 1234 else none

/-- A concrete persisted payload that is an object but not a well-formed
mapping from date keys to numbers: its value is a string. -/
def malformedPayload : RawValue :=
  .objv [("2024-01-01", .strv "oops")]

/-- `(finishSession now k s).1` keeps `remainingMs` as it was: the finish path
never touches the remaining time (its `_stopTimerInternal(false)` call does not
reset it). -/
theorem finishSession_remainingMs (now : ℚ) (todayKey : String) (s : FocusState) :
    (finishSession now todayKey s).1.remainingMs = s.remainingMs := by
  simp [finishSession, stopTimerInternal]

set_option maxRecDepth 8000
set_option maxHeartbeats 2000000

/-- Claim C1: a 1-minute session run to natural completion was claimed to hand
`addFocusedMilliseconds` a `spentMs` of ≈60000 (±1000). Evaluating the code on
that exact scenario (session started at time 0, ticks delivered at 1000 ms
intervals until `remainingMs` reaches 0) shows the finish path hands over
`spentMs = 1000` — one tick interval, not the session duration — so today's
bucket ends at 1000 ms, far below the claimed 59000–61000 ms range. -/
theorem oneMinuteRun_adds_single_tick_interval :
    (oneMinuteRun (getTodayKey 2026 9 11)).2 = some 1000 ∧
    getTodayMilliseconds (getTodayKey 2026 9 11)
        (oneMinuteRun (getTodayKey 2026 9 11)).1.stats = 1000 ∧
    (oneMinuteRun (getTodayKey 2026 9 11)).1.remainingMs = 0 ∧
    getTodayMilliseconds (getTodayKey 2026 9 11)
        (oneMinuteRun (getTodayKey 2026 9 11)).1.stats < 59000 := by
  norm_num [oneMinuteRun, oneMinuteTickTimes, deliverTick, onTick, finishSession,
    startNewSession, stopTimerInternal, initialState, minutesToMilliseconds,
    addFocusedMilliseconds, lookupOrZero, getTodayMilliseconds, TICK_INTERVAL_MS,
    List.foldl]

/-- Claim C2: for every finite minutes > 0, `startNewSession(minutes)` — from
any prior state — sets `remainingMs` to minutes × 60000, the running flag to
true, `lastTickTime` to the current instant, arms the periodic tick, and shows
no rejection warning. -/
theorem startNewSession_valid (m now : ℚ) (s : FocusState) (h : 0 < m) :
    (startNewSession (some m) now s).1.remainingMs = m * 60000 ∧
    (startNewSession (some m) now s).1.running = true ∧
    (startNewSession (some m) now s).1.lastTickTime = now ∧
    (startNewSession (some m) now s).1.timerArmed = true ∧
    (startNewSession (some m) now s).2 = false := by
  have hms : ¬ (m * 60 * 1000 ≤ 0) := by push_neg; positivity
  refine ⟨?_, ?_, ?_, ?_, ?_⟩ <;>
    simp [startNewSession, minutesToMilliseconds, stopTimerInternal, hms]
  ring

/-- Witness for C2 at minutes = 25, started at instant 12345 from a mid-session
state. -/
theorem startNewSession_valid_witness :
    (startNewSession (some 25) 12345 demoRunningState).1.remainingMs = 25 * 60000 ∧
    (startNewSession (some 25) 12345 demoRunningState).1.running = true ∧
    (startNewSession (some 25) 12345 demoRunningState).1.lastTickTime = 12345 ∧
    (startNewSession (some 25) 12345 demoRunningState).1.timerArmed = true ∧
    (startNewSession (some 25) 12345 demoRunningState).2 = false :=
  startNewSession_valid 25 12345 demoRunningState (by norm_num)

/-- Claim C3: for minutes ≤ 0 or non-finite, `startNewSession` returns with the
whole state unchanged and the rejection warning shown — no partial effects. -/
theorem startNewSession_invalid (minutes : Option ℚ) (now : ℚ) (s : FocusState)
    (h : minutes = none ∨ ∃ m, minutes = some m ∧ m ≤ 0) :
    startNewSession minutes now s = (s, true) := by
  rcases h with rfl | ⟨m, rfl, hm⟩
  · simp [startNewSession, minutesToMilliseconds]
  · have hms : m * 60 * 1000 ≤ 0 := by nlinarith
    simp [startNewSession, minutesToMilliseconds, hms]

/-- Witness for C3 at minutes = −5 on a fresh manager. -/
theorem startNewSession_invalid_witness :
    startNewSession (some (-5)) 0 initialState = (initialState, true) :=
  startNewSession_invalid (some (-5)) 0 initialState (Or.inr ⟨-5, rfl, by norm_num⟩)

/-- Claim C4: with a non-decreasing clock (`lastTickTime ≤ now`) and a
non-negative remaining time, a tick delivered while running never increases
`remainingMs`, and the remaining time it leaves behind is never negative
(clamped to 0 on or below zero). -/
theorem onTick_monotone_nonneg (now finishNow : ℚ) (todayKey : String)
    (s : FocusState) (hrun : s.running = true) (hclock : s.lastTickTime ≤ now)
    (h0 : 0 ≤ s.remainingMs) :
    (onTick now finishNow todayKey s).1.remainingMs ≤ s.remainingMs ∧
    0 ≤ (onTick now finishNow todayKey s).1.remainingMs := by
  unfold onTick
  rw [hrun]
  simp only [Bool.not_true, Bool.false_eq_true, if_false]
  split_ifs with hfin
  · rw [finishSession_remainingMs]
    exact ⟨h0, le_refl 0⟩
  · constructor <;> simp only [] <;> push_neg at hfin <;> linarith

/-- Witness for C4: a tick at instant 1000 on the concrete running state. -/
theorem onTick_monotone_nonneg_witness :
    (onTick 1000 1000 "2026-10-11" demoRunningState).1.remainingMs
        ≤ demoRunningState.remainingMs ∧
    0 ≤ (onTick 1000 1000 "2026-10-11" demoRunningState).1.remainingMs :=
  onTick_monotone_nonneg 1000 1000 "2026-10-11" demoRunningState rfl
    (by norm_num [demoRunningState]) (by norm_num [demoRunningState])

/-- Claim C5: `addFocusedMilliseconds` with a non-finite or ≤ 0 delta leaves
the mapping untouched and issues no persist; with a finite positive delta it
adds the delta to today's bucket (an absent key reading as 0), issues a persist
of exactly the already-updated mapping, and two same-day additions accumulate
into the one bucket. -/
theorem addFocusedMilliseconds_spec (todayKey : String) (stats : StatsMap)
    (deltaMs : Option ℚ) :
    ((deltaMs = none ∨ ∃ q, deltaMs = some q ∧ q ≤ 0) →
        addFocusedMilliseconds todayKey stats deltaMs = (stats, none)) ∧
    (∀ q, deltaMs = some q → 0 < q →
        (addFocusedMilliseconds todayKey stats deltaMs).1 todayKey
            = some (lookupOrZero stats todayKey + q) ∧
        (addFocusedMilliseconds todayKey stats deltaMs).2
            = some (addFocusedMilliseconds todayKey stats deltaMs).1) ∧
    (∀ a b : ℚ, 0 < a → 0 < b →
        (addFocusedMilliseconds todayKey
            (addFocusedMilliseconds todayKey stats (some a)).1 (some b)).1 todayKey
          = some (lookupOrZero stats todayKey + a + b)) := by
  refine ⟨?_, ?_, ?_⟩
  · rintro (rfl | ⟨q, rfl, hq⟩)
    · simp [addFocusedMilliseconds]
    · simp [addFocusedMilliseconds, hq]
  · rintro q rfl hq
    have hq' : ¬ q ≤ 0 := not_le.mpr hq
    constructor <;> simp [addFocusedMilliseconds, hq']
  · intro a b ha hb
    have ha' : ¬ a ≤ 0 := not_le.mpr ha
    have hb' : ¬ b ≤ 0 := not_le.mpr hb
    simp [addFocusedMilliseconds, ha', hb', lookupOrZero, add_assoc]

/-- Witness for C5: a rejected −3 ms delta and an accepted 7 ms delta on a
mapping with no bucket for the day yet. -/
theorem addFocusedMilliseconds_spec_witness :
    addFocusedMilliseconds "2026-10-11" demoStats (some (-3)) = (demoStats, none) ∧
    (addFocusedMilliseconds "2026-10-11" demoStats (some 7)).1 "2026-10-11"
        = some (lookupOrZero demoStats "2026-10-11" + 7) ∧
    (addFocusedMilliseconds "2026-10-11"
        (addFocusedMilliseconds "2026-10-11" demoStats (some 7)).1 (some 5)).1 "2026-10-11"
        = some (lookupOrZero demoStats "2026-10-11" + 7 + 5) :=
  ⟨(addFocusedMilliseconds_spec "2026-10-11" demoStats (some (-3))).1
      (Or.inr ⟨-3, rfl, by norm_num⟩),
   ((addFocusedMilliseconds_spec "2026-10-11" demoStats (some 7)).2.1 7 rfl
      (by norm_num)).1,
   (addFocusedMilliseconds_spec "2026-10-11" demoStats (some 7)).2.2 7 5
      (by norm_num) (by norm_num)⟩

/-- Claim C6, counterexample: a persisted payload that is an object but not a
well-formed mapping from date keys to numbers is NOT loaded as an empty
mapping — `_loadStats` keeps it as-is, contradicting the claim that any
ill-formed payload initializes the store empty. -/
theorem loadStats_claim_false :
    specWellFormedMapping malformedPayload = false ∧
    loadStats malformedPayload ≠ RawValue.objv [] := by
  refine ⟨rfl, ?_⟩
  simp [loadStats, malformedPayload, jsTruthy, typeofObject]

/-- Claim C6, amended: `_loadStats` is total (never throws) and initializes to
an empty mapping exactly when the persisted value is absent, falsy, or not of
JavaScript type "object"; any object-typed value is kept as-is, even when it is
not a well-formed mapping from date keys to numbers. -/
theorem loadStats_amended (raw : RawValue) :
    (jsTruthy raw = false ∨ typeofObject raw = false →
        loadStats raw = RawValue.objv []) ∧
    (jsTruthy raw = true → typeofObject raw = true → loadStats raw = raw) := by
  constructor
  · rintro (h | h) <;> simp [loadStats, h]
  · intro h1 h2
    simp [loadStats, h1, h2]

/-- Witness for the amended C6: an absent payload loads empty; the malformed
object payload is kept as-is. -/
theorem loadStats_amended_witness :
    loadStats RawValue.undef = RawValue.objv [] ∧
    loadStats malformedPayload = malformedPayload :=
  ⟨(loadStats_amended RawValue.undef).1 (Or.inl rfl),
   (loadStats_amended malformedPayload).2 rfl rfl⟩

/-- Claim C7: stopping a session — from any state, with or without the
announcement — leaves the statistics mapping exactly as it was: partial
progress is never added to any day's bucket. -/
theorem stopSession_preserves_stats (showMessage : Bool) (s : FocusState) :
    (stopSession showMessage s).1.stats = s.stats := by
  simp [stopSession, stopTimerInternal]

/-- Claim C8: from a running state with positive remaining time, toggling
pause/resume twice with no tick in between first pauses (remaining time
frozen) and then returns to running with the same remaining time. -/
theorem pauseResume_roundTrip (now1 now2 : ℚ) (s : FocusState)
    (hrun : s.running = true) (hpos : 0 < s.remainingMs) :
    ((togglePauseOrResume now1 s).1.running = false ∧
     (togglePauseOrResume now1 s).1.remainingMs = s.remainingMs) ∧
    ((togglePauseOrResume now2 (togglePauseOrResume now1 s).1).1.running = true ∧
     (togglePauseOrResume now2 (togglePauseOrResume now1 s).1).1.remainingMs
        = s.remainingMs) := by
  have hpos' : ¬ s.remainingMs ≤ 0 := not_le.mpr hpos
  have e1 : (togglePauseOrResume now1 s).1 = { s with running := false } := by
    simp [togglePauseOrResume, hpos', hrun]
  have e2 : (togglePauseOrResume now2 { s with running := false }).1
      = { s with running := true, lastTickTime := now2 } := by
    simp [togglePauseOrResume, hpos']
  rw [e1, e2]
  exact ⟨⟨rfl, rfl⟩, ⟨rfl, rfl⟩⟩

/-- Witness for C8 on the concrete running state, pausing at instant 5000 and
resuming at instant 20000. -/
theorem pauseResume_roundTrip_witness :
    ((togglePauseOrResume 5000 demoRunningState).1.running = false ∧
     (togglePauseOrResume 5000 demoRunningState).1.remainingMs
        = demoRunningState.remainingMs) ∧
    ((togglePauseOrResume 20000 (togglePauseOrResume 5000 demoRunningState).1).1.running
        = true ∧
     (togglePauseOrResume 20000 (togglePauseOrResume 5000 demoRunningState).1).1.remainingMs
        = demoRunningState.remainingMs) :=
  pauseResume_roundTrip 5000 20000 demoRunningState rfl
    (by norm_num [demoRunningState])

/-- Claim C9: whenever the running flag is down (idle, paused, after a stop or
a finish), a tick invocation returns the entire state unchanged and hands
nothing to the statistics store. -/
theorem onTick_noop_not_running (now finishNow : ℚ) (todayKey : String)
    (s : FocusState) (h : s.running = false) :
    onTick now finishNow todayKey s = (s, none) := by
  simp [onTick, h]

/-- Witness for C9: a stale tick on a fresh, never-started manager. -/
theorem onTick_noop_not_running_witness :
    onTick 1000 1000 "2026-10-11" initialState = (initialState, none) :=
  onTick_noop_not_running 1000 1000 "2026-10-11" initialState rfl

/-- Claim C10: a finite positive delta changes only today's bucket — every
other key keeps exactly its previous value (present or absent alike). -/
theorem addFocusedMilliseconds_frame (todayKey : String) (stats : StatsMap)
    (q : ℚ) (k : String) (hq : 0 < q) (hk : k ≠ todayKey) :
    (addFocusedMilliseconds todayKey stats (some q)).1 k = stats k := by
  simp [addFocusedMilliseconds, not_le.mpr hq, hk]

/-- Witness for C10: adding 7 ms to 2026-10-11 leaves the 2026-01-05 bucket of
the concrete mapping exactly as it was. -/
theorem addFocusedMilliseconds_frame_witness :
    (addFocusedMilliseconds "2026-10-11" demoStats (some 7)).1 "2026-01-05"
        = demoStats "2026-01-05" :=
  addFocusedMilliseconds_frame "2026-10-11" demoStats 7 "2026-01-05"
    (by norm_num) (by decide)

end FocusSession
